import Mathlib

/-!
Verification of the e-voting repository's vote-ledger core and its callers.

The request-layer callers (`blockchain.service.ts`, the unnamed variant of the
same service, and `route - vote.ts`) are embedded directly from the source.
The ledger and crypto utility (`blockchain.ts`, `crypto-utils.ts`) are not in
the source tree; they are modelled from the specification (spec.md §3, §4.1,
§4.2), as marked on each definition.
-/

namespace EVoting

/-! ### Decimal-digit encoding

Modelled from the spec: `crypto-utils.ts` is absent from the source tree, so
the canonical byte/string encoding of numeric fields (spec §4.1
`canonicalSerialize`) is modelled as the standard decimal representation,
built here with a provable round-trip. -/

/-- Numeric value of a decimal digit character. -/
def digitVal (c : Char) : Nat := c.toNat - 48

/-- Little-endian decimal digits, with explicit fuel so that the function
reduces by evaluation; the fuel is always sufficient when it exceeds `n`. -/
def natToDigitsRevAux : Nat → Nat → List Char
  | 0, _ => []
  | f + 1, n =>
    if n < 10 then [Nat.digitChar n]
    else Nat.digitChar (n % 10) :: natToDigitsRevAux f (n / 10)

/-- Little-endian decimal digits of a natural number. -/
def natToDigitsRev (n : Nat) : List Char := natToDigitsRevAux (n + 1) n

/-- Value of a little-endian digit list, inverse of `natToDigitsRev`. -/
def valOfDigitsRev : List Char → Nat
  | [] => 0
  | c :: cs => digitVal c + 10 * valOfDigitsRev cs

/-- Decimal string representation used by the modelled serializers. -/
def natRepr (n : Nat) : String := List.asString (natToDigitsRev n).reverse

/-! ### Key/Signature utility

Modelled from the spec (§4.1): `crypto-utils.ts` is not under the source tree.
Keys are strings; the private key paired with a public key is a fixed tagging
of it; signatures are an injective pairing of the signed data with the private
key; `verify` recomputes the signature from the data and the key pair and
compares, returning `false` (never throwing) on an invalid key. -/

namespace CryptoUtils

structure KeyPair where
  publicKey : String
  privateKey : String
deriving DecidableEq

/-- Modelled from the spec: the private key paired to a public key. -/
def privForPub (pub : String) : String := "PRIV:" ++ pub

/-- Modelled from the spec: `generateKeyPair()` returns a fresh pair; freshness
is supplied by the caller as a seed. -/
def generateKeyPair (seed : Nat) : KeyPair :=
  ⟨"PUB-" ++ natRepr seed, privForPub ("PUB-" ++ natRepr seed)⟩

/-- Modelled from the spec: `isValidPublicKey` rejects malformed/empty input;
emptiness is the malformation the spec names. -/
def isValidPublicKey (k : String) : Bool := k != ""

/-- Modelled from the spec: `sign(data, privateKey)` produces a signature
string over the data. -/
def signData (data priv : String) : String := "SIG(" ++ data ++ ";" ++ priv ++ ")"

/-- Modelled from the spec: `verify(data, signature, publicKey)`; false on
invalid key or mismatch, never throws. -/
def verifySignature (data sig pub : String) : Bool :=
  isValidPublicKey pub && (sig == signData data (privForPub pub))

end CryptoUtils

/-! ### Vote transaction (interface `VoteTransaction` in blockchain.service.ts) -/

/-- The `VoteTransaction` interface of `blockchain.service.ts` (identical in
the unnamed service variant). `timestamp: Date` is modelled as milliseconds. -/
structure VoteTransaction where
  voteId : String
  electionId : Nat
  voterPublicKey : String
  candidateId : Nat
  timestamp : Nat
  signature : String
deriving DecidableEq

/-- The signable fields of a transaction: everything but the signature
(the `voteToSign` object of the unnamed service variant). -/
structure SignableVote where
  voteId : String
  electionId : Nat
  voterPublicKey : String
  candidateId : Nat
  timestamp : Nat
deriving DecidableEq

/-- The signable fields of a constructed transaction. -/
def signableOf (tx : VoteTransaction) : SignableVote :=
  { voteId := tx.voteId, electionId := tx.electionId,
    voterPublicKey := tx.voterPublicKey, candidateId := tx.candidateId,
    timestamp := tx.timestamp }

/-- Modelled from the spec (§4.1): `canonicalSerialize(fields)`, a
deterministic JSON-like encoding of the signable fields in a fixed order. -/
def canonicalSerializeVote (v : SignableVote) : String :=
  "\x7b\"voteId\":\"" ++ v.voteId ++ "\",\"electionId\":" ++ natRepr v.electionId ++
  ",\"voterPublicKey\":\"" ++ v.voterPublicKey ++ "\",\"candidateId\":" ++ natRepr v.candidateId ++
  ",\"timestamp\":" ++ natRepr v.timestamp ++ "\x7d"

/-- Modelled from the spec: the content-hash primitive, an injective-by-
construction digest of its input string (ideal collision-free hash). -/
def hashString (s : String) : String := "H#" ++ s

/-- Full payload of a transaction, its signature included (spec glossary:
content hash is over the full payload). -/
def fullSerializeVote (tx : VoteTransaction) : String :=
  canonicalSerializeVote (signableOf tx) ++ "|sig:" ++ tx.signature

/-- Modelled from the spec: `CryptoUtils.hashVote`, the transaction content
hash used by both service variants. -/
def hashVote (tx : VoteTransaction) : String := hashString (fullSerializeVote tx)

/-! ### Block and Ledger

Modelled from the spec (§3, §4.2): `blockchain.ts` (the `VotingBlockchain`
class behind `BlockchainManager.getBlockchain`) is not under the source tree;
only its callers are. The ledger is modelled from the spec's data model and
the `submitTransaction`/`sealPending` operation descriptions. -/

/-- Modelled from the spec (§3 Block): a sealed block. -/
structure Block where
  index : Nat
  transactions : List VoteTransaction
  previousHash : String
  hash : String
  sealedAt : Nat
deriving DecidableEq

/-- Modelled from the spec: the fixed genesis `previousHash` constant. -/
def GENESIS_PREVIOUS_HASH : String := "0"

/-- Modelled from the spec (§3 Block): the block hash is over index,
transactions, previousHash, sealedAt and a seal marker. -/
def serializeBlockPayload (index : Nat) (txs : List VoteTransaction)
    (previousHash : String) (sealedAt : Nat) : String :=
  "BLK(" ++ natRepr index ++ ";" ++ String.join (txs.map fullSerializeVote) ++
  ";" ++ previousHash ++ ";" ++ natRepr sealedAt ++ ";SEALED)"

/-- Modelled from the spec: hash over the full block payload. -/
def computeBlockHash (index : Nat) (txs : List VoteTransaction)
    (previousHash : String) (sealedAt : Nat) : String :=
  hashString (serializeBlockPayload index txs previousHash sealedAt)

/-- A block whose stored `hash` is computed from its own stored fields. -/
def mkBlock (index : Nat) (txs : List VoteTransaction) (previousHash : String)
    (sealedAt : Nat) : Block :=
  { index := index, transactions := txs, previousHash := previousHash,
    hash := computeBlockHash index txs previousHash sealedAt, sealedAt := sealedAt }

/-- Modelled from the spec (§3 Ledger): genesis block, created at ledger
construction. -/
def genesisBlock (sealedAt : Nat) : Block :=
  mkBlock 0 [] GENESIS_PREVIOUS_HASH sealedAt

/-- Modelled from the spec (§3 Ledger): per-election chain, pending pool and
voted-key set. The pending pool is keyed by `voteId` and sealed in insertion
order; a list of transactions carries both the keys and the order. -/
structure Ledger where
  electionId : Nat
  chain : List Block
  pendingPool : List VoteTransaction
  votedKeys : List String
deriving DecidableEq

/-- Modelled from the spec: ledger construction — genesis block created
synchronously, empty pool, no voted keys. -/
def mkLedger (electionId : Nat) (now : Nat) : Ledger :=
  { electionId := electionId, chain := [genesisBlock now],
    pendingPool := [], votedKeys := [] }

/-- The chain tail; a reachable ledger's chain is never empty. -/
def Ledger.lastBlock (L : Ledger) : Block :=
  L.chain.getLast?.getD (genesisBlock 0)

/-- Modelled from the spec (§4.2 `submitTransaction`): reject on a voted key,
an invalid public key, or a failed signature verification — with no state
change; otherwise insert into the pool and the voted-key set atomically. -/
def Ledger.submitTransaction (L : Ledger) (tx : VoteTransaction) : Bool × Ledger :=
  if L.votedKeys.contains tx.voterPublicKey then (false, L)
  else if !(CryptoUtils.isValidPublicKey tx.voterPublicKey) then (false, L)
  else if !(CryptoUtils.verifySignature (canonicalSerializeVote (signableOf tx))
              tx.signature tx.voterPublicKey) then (false, L)
  else (true, { L with pendingPool := L.pendingPool ++ [tx],
                       votedKeys := L.votedKeys ++ [tx.voterPublicKey] })

/-- Modelled from the spec (§4.2 `sealPending`): a no-op returning the last
sealed block on an empty pool; otherwise seal the pending transactions in
insertion order into a new block linked to the chain tail, append it, and
clear the pool. -/
def Ledger.sealPending (L : Ledger) (now : Nat) : Block × Ledger :=
  if L.pendingPool.isEmpty then (L.lastBlock, L)
  else
    (mkBlock L.chain.length L.pendingPool L.lastBlock.hash now,
     { L with
        chain := L.chain ++ [mkBlock L.chain.length L.pendingPool L.lastBlock.hash now],
        pendingPool := [] })

/-- Modelled from the spec: `addVoteTransaction`, the name under which the
service calls the ledger's `submitTransaction`. -/
def Ledger.addVoteTransaction (L : Ledger) (tx : VoteTransaction) : Bool × Ledger :=
  L.submitTransaction tx

/-- Modelled from the spec: `forceMinePendingVotes`, the name under which the
service calls `sealPending`; the service checks its result for null, but per
spec §4.2 sealing always returns a block. -/
def Ledger.forceMinePendingVotes (L : Ledger) (now : Nat) : Option Block × Ledger :=
  ((L.sealPending now).1, (L.sealPending now).2)

/-- Ledger states reachable from construction by submissions and sealings. -/
inductive Reachable : Ledger → Prop where
  | init (electionId now : Nat) : Reachable (mkLedger electionId now)
  | submit (L : Ledger) (tx : VoteTransaction) :
      Reachable L → Reachable (L.submitTransaction tx).2
  | sealStep (L : Ledger) (now : Nat) :
      Reachable L → Reachable (L.sealPending now).2

/-- All accepted transactions of a ledger: sealed ones in chain order followed
by pending ones in insertion order. -/
def acceptedTransactions (L : Ledger) : List VoteTransaction :=
  (L.chain.map Block.transactions).flatten ++ L.pendingPool

/-- The invariants a ledger maintains across its reachable states: a nonempty
chain, every accepted transaction's voter key registered in `votedKeys`,
pairwise-distinct voter keys among accepted transactions, a hash-linked
chain, and stored block hashes that match recomputation from stored fields. -/
def LedgerInv (L : Ledger) : Prop :=
  L.chain ≠ [] ∧
  (∀ tx ∈ acceptedTransactions L, tx.voterPublicKey ∈ L.votedKeys) ∧
  List.Pairwise (fun a b => a.voterPublicKey ≠ b.voterPublicKey)
    (acceptedTransactions L) ∧
  List.Chain' (fun a b => b.previousHash = a.hash) L.chain ∧
  (∀ b ∈ L.chain,
    b.hash = computeBlockHash b.index b.transactions b.previousHash b.sealedAt)

/-! ### Vote Submission Facade — `blockchain.service.ts` (the imported file)

Embedded from `src/src/lib/blockchain/blockchain.service.ts`. The fresh
values the code draws from its environment (`generateVoteId()`, `new Date()`,
the generated key pair) and the per-election ledger resolved from
`BlockchainManager` are passed explicitly. -/

structure VoteData where
  candidateId : Nat
  timestamp : String
deriving DecidableEq

namespace BlockchainService

/-- Step 3 of `addVoteToElection`: keep the caller's key unless it is missing
(falsy) or invalid, else substitute a freshly generated public key. -/
def finalKey (voterPublicKey : String) (freshKey : CryptoUtils.KeyPair) : String :=
  if voterPublicKey == "" || !(CryptoUtils.isValidPublicKey voterPublicKey) then
    freshKey.publicKey
  else voterPublicKey

/-- Step 4 of `addVoteToElection`: the constructed transaction — server-time
timestamp (`new Date()`), and `signature || "system-signed-placeholder"`. -/
def builtTransaction (voteId : String) (now : Nat) (freshKey : CryptoUtils.KeyPair)
    (electionId : Nat) (voteData : VoteData) (voterPublicKey signature : String) :
    VoteTransaction :=
  { voteId := voteId, electionId := electionId,
    candidateId := voteData.candidateId,
    voterPublicKey := finalKey voterPublicKey freshKey,
    timestamp := now,
    signature := if signature == "" then ("system-signed-placeholder") else signature }

/-- `addVoteToElection` of `blockchain.service.ts`: build the transaction,
hash it, submit to the ledger (throw on false), force-mine (throw on null),
and return the transaction hash with the mined block's hash. -/
def addVoteToElection (ledger : Ledger) (voteId : String) (now : Nat)
    (freshKey : CryptoUtils.KeyPair) (electionId : Nat) (voteData : VoteData)
    (voterPublicKey signature : String) :
    Except String ((String × String) × Ledger) :=
  let transaction := builtTransaction voteId now freshKey electionId voteData
      voterPublicKey signature
  let txHash := hashVote transaction
  let r1 := ledger.addVoteTransaction transaction
  if !r1.1 then
    .error ("Failed to add vote transaction to blockchain validation pool.")
  else
    let r2 := r1.2.forceMinePendingVotes now
    match r2.1 with
    | none => .error ("Mining failed. Vote could not be confirmed in a block.")
    | some minedBlock => .ok ((txHash, minedBlock.hash), r2.2)

end BlockchainService

/-! ### Vote Submission Facade — unnamed variant (src/unnamed/part_006)

Embedded from the unnamed source file `part_006`, a second version of the
same `BlockchainService` class whose fallback path generates a key pair and
signs the canonical serialization. -/

namespace BlockchainServiceV2

/-- The fallback condition of part_006 step 3: public key missing (falsy) or
invalid. -/
def fallbackTaken (voterPublicKey : String) : Bool :=
  voterPublicKey == "" || !(CryptoUtils.isValidPublicKey voterPublicKey)

/-- Step 3 of part_006's `addVoteToElection`: on the fallback, generate a key
pair, canonically serialize the signable fields with the new key and the
single timestamp, and sign with the new private key; otherwise keep the
caller's key and signature unchanged. -/
def finalKeyAndSignature (voteId : String) (electionId candidateId timestamp : Nat)
    (freshKey : CryptoUtils.KeyPair) (voterPublicKey signature : String) :
    String × String :=
  if fallbackTaken voterPublicKey then
    let finalPublicKey := freshKey.publicKey
    let voteToSign : SignableVote :=
      { voteId := voteId, electionId := electionId,
        voterPublicKey := finalPublicKey, candidateId := candidateId,
        timestamp := timestamp }
    let serializedData := canonicalSerializeVote voteToSign
    (finalPublicKey, CryptoUtils.signData serializedData freshKey.privateKey)
  else (voterPublicKey, signature)

/-- Step 4 of part_006's `addVoteToElection`: the constructed transaction,
reusing the single timestamp fixed at step 2. -/
def builtTransaction (voteId : String) (now : Nat) (freshKey : CryptoUtils.KeyPair)
    (electionId : Nat) (voteData : VoteData) (voterPublicKey signature : String) :
    VoteTransaction :=
  let fin := finalKeyAndSignature voteId electionId voteData.candidateId now
      freshKey voterPublicKey signature
  { voteId := voteId, electionId := electionId,
    candidateId := voteData.candidateId,
    voterPublicKey := fin.1, timestamp := now, signature := fin.2 }

/-- `addVoteToElection` of part_006: identical pipeline to the imported
variant apart from the signing fallback. -/
def addVoteToElection (ledger : Ledger) (voteId : String) (now : Nat)
    (freshKey : CryptoUtils.KeyPair) (electionId : Nat) (voteData : VoteData)
    (voterPublicKey signature : String) :
    Except String ((String × String) × Ledger) :=
  let transaction := builtTransaction voteId now freshKey electionId voteData
      voterPublicKey signature
  let txHash := hashVote transaction
  let r1 := ledger.addVoteTransaction transaction
  if !r1.1 then
    .error ("Failed to add vote. Signature validation failed or voter already voted.")
  else
    let r2 := r1.2.forceMinePendingVotes now
    match r2.1 with
    | none => .error ("Mining failed. Vote could not be confirmed in a block.")
    | some minedBlock => .ok ((txHash, minedBlock.hash), r2.2)

end BlockchainServiceV2

/-! ### Vote route — step 5 of `route - vote.ts` (POST /api/voter/vote)

Embedded from `src/src/app/api/voter/vote/route - vote.ts`, lines 192-240:
the auto-signing fallback that prepares the public key and signature
forwarded to the facade. -/

namespace VoteRoute

/-- `JSON.stringify(voteData)` for `voteData = { candidateId, timestamp }` —
the payload the route signs in its fallback. -/
def votePayload (candidateId : Nat) (timestampIso : String) : String :=
  "\x7b\"candidateId\":" ++ natRepr candidateId ++ ",\"timestamp\":\"" ++
  timestampIso ++ "\"\x7d"

/-- The key and signature the route forwards to
`blockchain.addVoteToElection` (the last two arguments of that call). -/
structure PreparedSubmission where
  finalPublicKey : String
  finalSignature : String
deriving DecidableEq

/-- Lines 199-239 of the route: start from `user.publicKey` (possibly null)
and the optional client signature; when the signature is falsy, generate a
key pair and sign `JSON.stringify(voteData)` with it — on a key-generation
throw, set the signature to the empty string; finally default a falsy public
key to `"system_fallback_key"` and an absent signature to `""`. -/
def prepareSubmission (userPublicKey : Option String)
    (clientSignature : Option String) (candidateId : Nat)
    (timestampIso : String) (keygen : Option CryptoUtils.KeyPair) :
    PreparedSubmission :=
  let fp0 := userPublicKey.getD ("")
  let fs0 := clientSignature.getD ("")
  let step :=
    if fs0 == "" then
      match keygen with
      | some kp =>
          (kp.publicKey,
           CryptoUtils.signData (votePayload candidateId timestampIso) kp.privateKey)
      | none => (fp0, "")
    else (fp0, fs0)
  { finalPublicKey := if step.1 == "" then ("system_fallback_key") else step.1,
    finalSignature := step.2 }

end VoteRoute

/-! ### Sample values used by the concrete witnesses -/

/-- A fresh key pair from seed 7. -/
def sampleKeyPair : CryptoUtils.KeyPair := CryptoUtils.generateKeyPair 7

/-- The signable fields of the sample transaction. -/
def sampleSignable : SignableVote :=
  { voteId := "V1", electionId := 1, voterPublicKey := sampleKeyPair.publicKey,
    candidateId := 2, timestamp := 5 }

/-- A correctly signed sample transaction for election 1. -/
def sampleSignedTx : VoteTransaction :=
  { voteId := "V1", electionId := 1, voterPublicKey := sampleKeyPair.publicKey,
    candidateId := 2, timestamp := 5,
    signature :=
      CryptoUtils.signData (canonicalSerializeVote sampleSignable)
        sampleKeyPair.privateKey }

/-- A second, distinct signed transaction (different voter key, seed 8). -/
def sampleKeyPair2 : CryptoUtils.KeyPair := CryptoUtils.generateKeyPair 8

def sampleSignable2 : SignableVote :=
  { voteId := "V2", electionId := 1, voterPublicKey := sampleKeyPair2.publicKey,
    candidateId := 3, timestamp := 6 }

def sampleSignedTx2 : VoteTransaction :=
  { voteId := "V2", electionId := 1, voterPublicKey := sampleKeyPair2.publicKey,
    candidateId := 3, timestamp := 6,
    signature :=
      CryptoUtils.signData (canonicalSerializeVote sampleSignable2)
        sampleKeyPair2.privateKey }

/-- A freshly constructed ledger for election 1. -/
def sampleLedger0 : Ledger := mkLedger 1 0

/-- The ledger after accepting the sample transaction. -/
def sampleLedger1 : Ledger := (sampleLedger0.submitTransaction sampleSignedTx).2

/-- The ledger after sealing the sample transaction into a block. -/
def sampleLedger2 : Ledger := (sampleLedger1.sealPending 9).2

/-- A transaction with an empty (invalid) voter public key. -/
def sampleBadTx : VoteTransaction :=
  { voteId := "V9", electionId := 1, voterPublicKey := "", candidateId := 2,
    timestamp := 5, signature := "x" }

/-- A field set for the serializer determinism witness. -/
def sampleFieldsA : SignableVote :=
  { voteId := "V1", electionId := 1, voterPublicKey := "PK", candidateId := 2,
    timestamp := 3 }

/-- The same field values as `sampleFieldsA`, reconstructed independently. -/
def sampleFieldsB : SignableVote :=
  { voteId := "V1", electionId := 1, voterPublicKey := "PK", candidateId := 2,
    timestamp := 3 }

/-- Sample `voteData` argument as the route builds it. -/
def sampleVoteData : VoteData := { candidateId := 2, timestamp := "TS" }

/-- A voter's own valid key pair, for the facade's pass-through path. -/
def sampleVoterKeyPair : CryptoUtils.KeyPair := CryptoUtils.generateKeyPair 11

/-- A signature as the route's auto-sign fallback forwards it: produced over
JSON.stringify of only candidateId and timestamp, not over the canonical
serialization of any transaction's signable fields. -/
def sampleRouteSignature : String :=
  CryptoUtils.signData (VoteRoute.votePayload 2 ("T"))
    sampleVoterKeyPair.privateKey

/-- The transaction the part_006 facade constructs on the pass-through path
(valid caller key, caller-supplied signature kept unchanged). -/
def samplePassThroughTx : VoteTransaction :=
  BlockchainServiceV2.builtTransaction ("V1") 5 sampleKeyPair 1 sampleVoteData
    sampleVoterKeyPair.publicKey sampleRouteSignature

/-! ## Theorems -/

/-! ### Decimal encoding round-trip -/

theorem digitVal_digitChar (d : Nat) (h : d < 10) : digitVal (Nat.digitChar d) = d := by
  interval_cases d <;> decide

theorem valOfDigitsRev_natToDigitsRevAux (fuel n : Nat) (hf : n < fuel) :
    valOfDigitsRev (natToDigitsRevAux fuel n) = n := by
  induction fuel generalizing n with
  | zero => omega
  | succ f ih =>
    rw [natToDigitsRevAux]
    split
    · next h => simp [valOfDigitsRev, digitVal_digitChar _ h]
    · next h =>
      have hd : n / 10 < n := Nat.div_lt_self (by omega) (by decide)
      have hm : n % 10 < 10 := Nat.mod_lt n (by decide)
      simp only [valOfDigitsRev, digitVal_digitChar _ hm, ih (n / 10) (by omega)]
      omega

theorem valOfDigitsRev_natToDigitsRev (n : Nat) :
    valOfDigitsRev (natToDigitsRev n) = n :=
  valOfDigitsRev_natToDigitsRevAux (n + 1) n (Nat.lt_succ_self n)

theorem natToDigitsRev_injective : Function.Injective natToDigitsRev := by
  intro a b h
  have := congrArg valOfDigitsRev h
  simpa [valOfDigitsRev_natToDigitsRev] using this

theorem natRepr_data_injective {a b : Nat}
    (h : (natRepr a).data = (natRepr b).data) : a = b := by
  have hrev : (natToDigitsRev a).reverse = (natToDigitsRev b).reverse := h
  exact natToDigitsRev_injective (List.reverse_injective hrev)

/-! ### Crypto utility facts -/

theorem generated_key_valid (seed : Nat) :
    CryptoUtils.isValidPublicKey (CryptoUtils.generateKeyPair seed).publicKey = true := by
  have hne : ("PUB-" ++ natRepr seed) ≠ "" := by
    intro h
    have := congrArg String.data h
    simp [String.data_append] at this
  simp [CryptoUtils.generateKeyPair, CryptoUtils.isValidPublicKey, hne]

theorem verify_signData_self (data : String) (seed : Nat) :
    CryptoUtils.verifySignature data
      (CryptoUtils.signData data (CryptoUtils.generateKeyPair seed).privateKey)
      (CryptoUtils.generateKeyPair seed).publicKey = true := by
  have hv := generated_key_valid seed
  simp only [CryptoUtils.generateKeyPair] at hv
  simp [CryptoUtils.verifySignature, CryptoUtils.generateKeyPair, hv]

/-! ### Ledger state-machine lemmas -/

theorem submit_result (L : Ledger) (tx : VoteTransaction) :
    ((L.submitTransaction tx).1 = false ∧ (L.submitTransaction tx).2 = L) ∨
    ((L.submitTransaction tx).1 = true ∧
     tx.voterPublicKey ∉ L.votedKeys ∧
     (L.submitTransaction tx).2 =
       { L with pendingPool := L.pendingPool ++ [tx],
                votedKeys := L.votedKeys ++ [tx.voterPublicKey] }) := by
  rw [Ledger.submitTransaction]
  split
  · exact .inl ⟨rfl, rfl⟩
  · next hc =>
    split
    · exact .inl ⟨rfl, rfl⟩
    · split
      · exact .inl ⟨rfl, rfl⟩
      · refine .inr ⟨rfl, ?_, rfl⟩
        intro hm
        exact hc (List.contains_iff_exists_mem_beq.mpr ⟨_, hm, by simp⟩)

theorem submit_mem_votedKeys_false {L : Ledger} {tx : VoteTransaction}
    (hm : tx.voterPublicKey ∈ L.votedKeys) :
    (L.submitTransaction tx).1 = false := by
  rcases submit_result L tx with ⟨hf, _⟩ | ⟨_, hnm, _⟩
  · exact hf
  · exact absurd hm hnm

theorem seal_result (L : Ledger) (now : Nat) :
    (L.pendingPool = [] ∧ L.sealPending now = (L.lastBlock, L)) ∨
    (L.pendingPool ≠ [] ∧
     L.sealPending now =
       (mkBlock L.chain.length L.pendingPool L.lastBlock.hash now,
        { L with
           chain := L.chain ++
             [mkBlock L.chain.length L.pendingPool L.lastBlock.hash now],
           pendingPool := [] })) := by
  rw [Ledger.sealPending]
  split
  · next he => exact .inl ⟨List.isEmpty_iff.1 he, rfl⟩
  · next he => exact .inr ⟨fun h => he (List.isEmpty_iff.2 h), rfl⟩

theorem seal_pendingPool_empty (L : Ledger) (now : Nat) :
    (L.sealPending now).2.pendingPool = [] := by
  rcases seal_result L now with ⟨hp, he⟩ | ⟨_, he⟩
  · rw [he]; exact hp
  · rw [he]

theorem seal_chain_length (L : Ledger) (now : Nat) :
    (L.sealPending now).2.chain.length ≤ L.chain.length + 1 := by
  rcases seal_result L now with ⟨_, he⟩ | ⟨_, he⟩
  · rw [he]; exact Nat.le_succ _
  · rw [he]; simp

theorem reachable_ledgerInv {L : Ledger} (h : Reachable L) : LedgerInv L := by
  induction h with
  | init eid now =>
    refine ⟨by simp [mkLedger], ?_, ?_, ?_, ?_⟩
    · intro t ht
      simp [acceptedTransactions, mkLedger, genesisBlock, mkBlock] at ht
    · simp [acceptedTransactions, mkLedger, genesisBlock, mkBlock]
    · simp [mkLedger]
    · intro b hb
      simp only [mkLedger, List.mem_singleton] at hb
      subst hb
      simp [genesisBlock, mkBlock]
  | submit L tx hR ih =>
    obtain ⟨hne, hmem, hpw, hch, hrh⟩ := ih
    rcases submit_result L tx with ⟨_, heq⟩ | ⟨_, hnm, heq⟩
    · rw [heq]; exact ⟨hne, hmem, hpw, hch, hrh⟩
    · rw [heq]
      have hacc :
          acceptedTransactions
            { L with pendingPool := L.pendingPool ++ [tx],
                     votedKeys := L.votedKeys ++ [tx.voterPublicKey] } =
            acceptedTransactions L ++ [tx] := by
        simp [acceptedTransactions]
      refine ⟨hne, ?_, ?_, hch, hrh⟩
      · intro t htm
        rw [hacc] at htm
        rcases List.mem_append.1 htm with h1 | h1
        · exact List.mem_append_left _ (hmem t h1)
        · rw [List.mem_singleton] at h1
          subst h1
          exact List.mem_append_right _ (by simp)
      · rw [hacc]
        refine List.pairwise_append.2 ⟨hpw, by simp, ?_⟩
        intro a ha b hb
        rw [List.mem_singleton] at hb
        subst hb
        intro hkey
        exact hnm (hkey ▸ hmem a ha)
  | sealStep L now hR ih =>
    obtain ⟨hne, hmem, hpw, hch, hrh⟩ := ih
    rcases seal_result L now with ⟨_, heq⟩ | ⟨hnp, heq⟩
    · rw [heq]; exact ⟨hne, hmem, hpw, hch, hrh⟩
    · rw [heq]
      have hacc :
          acceptedTransactions
            { L with
               chain := L.chain ++
                 [mkBlock L.chain.length L.pendingPool L.lastBlock.hash now],
               pendingPool := [] } = acceptedTransactions L := by
        simp [acceptedTransactions, mkBlock]
      refine ⟨by simp, ?_, ?_, ?_, ?_⟩
      · intro t htm
        rw [hacc] at htm
        exact hmem t htm
      · rw [hacc]; exact hpw
      · refine List.chain'_append.2 ⟨hch, List.chain'_singleton _, ?_⟩
        intro x hx y hy
        simp only [List.head?_cons, Option.mem_def, Option.some.injEq] at hy
        subst hy
        show (mkBlock L.chain.length L.pendingPool L.lastBlock.hash now).previousHash
          = x.hash
        have hlast : L.chain.getLast? = some x := hx
        simp [mkBlock, Ledger.lastBlock, hlast]
      · intro b hb
        rcases List.mem_append.1 hb with h1 | h1
        · exact hrh b h1
        · rw [List.mem_singleton] at h1
          subst h1
          simp [mkBlock]

/-! ### Claim theorems for the ledger (spec-modelled) -/

/-- C3: in every reachable ledger state, no two accepted transactions —
pending or sealed — share a `voterPublicKey`, and `submitTransaction` returns
false for any transaction whose `voterPublicKey` is already in `votedKeys`. -/
theorem C3_double_vote_guard {L : Ledger} (h : Reachable L) :
    List.Pairwise (fun a b => a.voterPublicKey ≠ b.voterPublicKey)
      (acceptedTransactions L) ∧
    ∀ tx : VoteTransaction, tx.voterPublicKey ∈ L.votedKeys →
      (L.submitTransaction tx).1 = false := by
  exact ⟨(reachable_ledgerInv h).2.2.1, fun tx hm => submit_mem_votedKeys_false hm⟩

theorem C3_double_vote_guard_witness :
    List.Pairwise (fun a b => a.voterPublicKey ≠ b.voterPublicKey)
      (acceptedTransactions sampleLedger1) ∧
    (sampleLedger1.submitTransaction sampleSignedTx).1 = false := by
  have hr : Reachable sampleLedger1 :=
    Reachable.submit sampleLedger0 sampleSignedTx (Reachable.init 1 0)
  exact ⟨(C3_double_vote_guard hr).1,
    (C3_double_vote_guard hr).2 sampleSignedTx (by decide)⟩

/-- C4: in every reachable ledger state, every block after genesis has
`previousHash` equal to the preceding block's `hash`, and every stored block
hash is reproduced exactly by recomputing it from the block's own stored
fields. -/
theorem C4_chain_integrity {L : Ledger} (h : Reachable L) :
    (∀ i : Nat, ∀ hi : i + 1 < L.chain.length,
      (L.chain.get ⟨i + 1, hi⟩).previousHash =
        (L.chain.get ⟨i, by omega⟩).hash) ∧
    ∀ b ∈ L.chain,
      b.hash = computeBlockHash b.index b.transactions b.previousHash b.sealedAt := by
  obtain ⟨-, -, -, hch, hrh⟩ := reachable_ledgerInv h
  refine ⟨?_, hrh⟩
  intro i hi
  exact List.chain'_iff_get.1 hch i (by omega)

set_option maxRecDepth 8000 in
theorem C4_chain_integrity_witness :
    (sampleLedger2.chain.get ⟨1, by decide⟩).previousHash =
      (sampleLedger2.chain.get ⟨0, by decide⟩).hash ∧
    sampleLedger2.lastBlock.hash =
      computeBlockHash sampleLedger2.lastBlock.index
        sampleLedger2.lastBlock.transactions
        sampleLedger2.lastBlock.previousHash
        sampleLedger2.lastBlock.sealedAt := by
  have hr : Reachable sampleLedger2 :=
    Reachable.sealStep sampleLedger1 9
      (Reachable.submit sampleLedger0 sampleSignedTx (Reachable.init 1 0))
  exact ⟨(C4_chain_integrity hr).1 0 (by decide),
    (C4_chain_integrity hr).2 sampleLedger2.lastBlock (by decide)⟩

/-- C6: whenever `submitTransaction` rejects (returns false), the ledger state
— chain, pendingPool and votedKeys — is exactly what it was before the call. -/
theorem C6_rejection_no_state_change {L : Ledger} {tx : VoteTransaction}
    (h : (L.submitTransaction tx).1 = false) :
    (L.submitTransaction tx).2 = L := by
  rcases submit_result L tx with ⟨_, he⟩ | ⟨ht, _, _⟩
  · exact he
  · simp [ht] at h

theorem C6_rejection_no_state_change_witness :
    (sampleLedger0.submitTransaction sampleBadTx).2 = sampleLedger0 :=
  C6_rejection_no_state_change (by decide)

/-- C7: sealing an empty pending pool is a no-op returning the last sealed
block unchanged, and two consecutive seals with nothing newly submitted in
between append at most one new block. -/
theorem C7_empty_seal_noop (L : Ledger) (now t1 t2 : Nat) :
    (L.pendingPool = [] → L.sealPending now = (L.lastBlock, L)) ∧
    ((L.sealPending t1).2.sealPending t2).2.chain.length ≤ L.chain.length + 1 := by
  constructor
  · intro hp
    rcases seal_result L now with ⟨_, he⟩ | ⟨hnp, _⟩
    · exact he
    · exact absurd hp hnp
  · have h2 : ((L.sealPending t1).2.sealPending t2).2 = (L.sealPending t1).2 := by
      rcases seal_result (L.sealPending t1).2 t2 with ⟨_, he⟩ | ⟨hnp, _⟩
      · rw [he]
      · exact absurd (seal_pendingPool_empty L t1) hnp
    rw [h2]
    exact seal_chain_length L t1

theorem C7_empty_seal_noop_witness :
    (sampleLedger0.sealPending 1 = (sampleLedger0.lastBlock, sampleLedger0)) ∧
    ((sampleLedger0.sealPending 2).2.sealPending 3).2.chain.length ≤
      sampleLedger0.chain.length + 1 :=
  ⟨(C7_empty_seal_noop sampleLedger0 1 2 3).1 rfl,
   (C7_empty_seal_noop sampleLedger0 1 2 3).2⟩

/-- C8: `canonicalSerialize` is deterministic — two logically identical field
sets, however constructed, serialize to byte-identical output. -/
theorem C8_canonical_serialize_deterministic (a b : SignableVote)
    (h1 : a.voteId = b.voteId) (h2 : a.electionId = b.electionId)
    (h3 : a.voterPublicKey = b.voterPublicKey)
    (h4 : a.candidateId = b.candidateId) (h5 : a.timestamp = b.timestamp) :
    canonicalSerializeVote a = canonicalSerializeVote b := by
  cases a; cases b
  simp only at h1 h2 h3 h4 h5
  subst h1; subst h2; subst h3; subst h4; subst h5
  rfl

theorem C8_canonical_serialize_deterministic_witness :
    canonicalSerializeVote sampleFieldsA = canonicalSerializeVote sampleFieldsB :=
  C8_canonical_serialize_deterministic sampleFieldsA sampleFieldsB
    (by decide) (by decide) (by decide) (by decide) (by decide)

/-! ### Serialization mismatch lemmas -/

theorem hashVote_timestamp_inj {v k sg : String} {e c t1 t2 : Nat}
    (h : hashVote { voteId := v, electionId := e, voterPublicKey := k,
                    candidateId := c, timestamp := t1, signature := sg } =
         hashVote { voteId := v, electionId := e, voterPublicKey := k,
                    candidateId := c, timestamp := t2, signature := sg }) :
    t1 = t2 := by
  have hd := congrArg String.data h
  simp only [hashVote, hashString, fullSerializeVote, canonicalSerializeVote,
    signableOf, String.data_append, List.append_assoc,
    List.append_cancel_left_eq, List.append_cancel_right_eq] at hd
  exact natRepr_data_injective hd

theorem votePayload_ne_canonicalSerialize (c : Nat) (ts : String)
    (f : SignableVote) :
    VoteRoute.votePayload c ts ≠ canonicalSerializeVote f := by
  intro h
  have hd := congrArg (fun s : String => s.data[2]?) h
  simp only [VoteRoute.votePayload, canonicalSerializeVote, String.data_append,
    List.append_assoc] at hd
  rw [List.getElem?_append_left (by decide),
    List.getElem?_append_left (by decide)] at hd
  exact absurd hd (by decide)

theorem placeholder_ne_signData (data priv : String) :
    "system-signed-placeholder" ≠ CryptoUtils.signData data priv := by
  intro h
  have hd := congrArg (fun s : String => s.data[0]?) h
  simp only [CryptoUtils.signData, String.data_append, List.append_assoc] at hd
  rw [List.getElem?_append_left (by decide)] at hd
  exact absurd hd (by decide)

theorem placeholder_verify_false (data pub : String) :
    CryptoUtils.verifySignature data ("system-signed-placeholder") pub = false := by
  have hne : ("system-signed-placeholder" ==
      CryptoUtils.signData data (CryptoUtils.privForPub pub)) = false :=
    beq_eq_false_iff_ne.mpr (placeholder_ne_signData _ _)
  simp [CryptoUtils.verifySignature, hne]

/-! ### Facade pipeline lemmas -/

theorem fallbackTaken_of_invalid {pk : String}
    (h : CryptoUtils.isValidPublicKey pk = false) :
    BlockchainServiceV2.fallbackTaken pk = true := by
  simp [BlockchainServiceV2.fallbackTaken, h]

theorem v2_fallback_signature (voteId : String) (now seed electionId : Nat)
    (voteData : VoteData) (voterPublicKey signature : String)
    (hf : BlockchainServiceV2.fallbackTaken voterPublicKey = true) :
    (BlockchainServiceV2.builtTransaction voteId now
        (CryptoUtils.generateKeyPair seed) electionId voteData voterPublicKey
        signature).signature =
      CryptoUtils.signData
        (canonicalSerializeVote (signableOf
          (BlockchainServiceV2.builtTransaction voteId now
            (CryptoUtils.generateKeyPair seed) electionId voteData
            voterPublicKey signature)))
        (CryptoUtils.generateKeyPair seed).privateKey ∧
    CryptoUtils.verifySignature
      (canonicalSerializeVote (signableOf
        (BlockchainServiceV2.builtTransaction voteId now
          (CryptoUtils.generateKeyPair seed) electionId voteData voterPublicKey
          signature)))
      (BlockchainServiceV2.builtTransaction voteId now
        (CryptoUtils.generateKeyPair seed) electionId voteData voterPublicKey
        signature).signature
      (BlockchainServiceV2.builtTransaction voteId now
        (CryptoUtils.generateKeyPair seed) electionId voteData voterPublicKey
        signature).voterPublicKey = true := by
  constructor
  · simp only [BlockchainServiceV2.builtTransaction,
      BlockchainServiceV2.finalKeyAndSignature, hf, if_true, signableOf]
  · simp only [BlockchainServiceV2.builtTransaction,
      BlockchainServiceV2.finalKeyAndSignature, hf, if_true, signableOf]
    exact verify_signData_self _ seed

theorem submit_true_pool {L : Ledger} {tx : VoteTransaction}
    (h : (L.submitTransaction tx).1 = true) :
    (L.submitTransaction tx).2.pendingPool = L.pendingPool ++ [tx] := by
  rcases submit_result L tx with ⟨hf, _⟩ | ⟨_, _, heq⟩
  · rw [hf] at h; cases h
  · rw [heq]

theorem tx_in_sealed_block {L : Ledger} {tx : VoteTransaction} (now : Nat)
    (h : (L.submitTransaction tx).1 = true) :
    tx ∈ ((L.submitTransaction tx).2.sealPending now).1.transactions := by
  have hp := submit_true_pool h
  rcases seal_result (L.submitTransaction tx).2 now with ⟨hemp, _⟩ | ⟨_, he⟩
  · rw [hp] at hemp; simp at hemp
  · rw [he]
    simp only [mkBlock]
    rw [hp]
    simp

theorem addVote_eval (ledger : Ledger) (voteId : String) (now : Nat)
    (freshKey : CryptoUtils.KeyPair) (electionId : Nat) (voteData : VoteData)
    (voterPublicKey signature : String) :
    BlockchainService.addVoteToElection ledger voteId now freshKey electionId
        voteData voterPublicKey signature =
      if (ledger.submitTransaction (BlockchainService.builtTransaction voteId
            now freshKey electionId voteData voterPublicKey signature)).1 = false
      then .error ("Failed to add vote transaction to blockchain validation pool.")
      else .ok ((hashVote (BlockchainService.builtTransaction voteId now freshKey
                  electionId voteData voterPublicKey signature),
                 ((ledger.submitTransaction (BlockchainService.builtTransaction
                    voteId now freshKey electionId voteData voterPublicKey
                    signature)).2.sealPending now).1.hash),
                ((ledger.submitTransaction (BlockchainService.builtTransaction
                  voteId now freshKey electionId voteData voterPublicKey
                  signature)).2.sealPending now).2) := by
  simp only [BlockchainService.addVoteToElection, Ledger.addVoteTransaction,
    Ledger.forceMinePendingVotes]
  cases h : (ledger.submitTransaction (BlockchainService.builtTransaction voteId
      now freshKey electionId voteData voterPublicKey signature)).1
  · simp [h]
  · simp [h]

/-! ### Claim theorems for the facades and the route -/

/-- C5: the imported facade's `addVoteToElection` fails with an error exactly
when the ledger's submission returns false or mining yields no block; on
success it returns the constructed transaction's content hash paired with the
hash of the block that sealed it (and that block contains the transaction). -/
theorem C5_facade_error_semantics (ledger : Ledger) (voteId : String)
    (now : Nat) (freshKey : CryptoUtils.KeyPair) (electionId : Nat)
    (voteData : VoteData) (voterPublicKey signature : String) :
    ((∃ e, BlockchainService.addVoteToElection ledger voteId now freshKey
        electionId voteData voterPublicKey signature = .error e) ↔
      ((ledger.submitTransaction (BlockchainService.builtTransaction voteId now
          freshKey electionId voteData voterPublicKey signature)).1 = false ∨
       ((ledger.submitTransaction (BlockchainService.builtTransaction voteId now
          freshKey electionId voteData voterPublicKey
          signature)).2.forceMinePendingVotes now).1 = none)) ∧
    (∀ th bh L', BlockchainService.addVoteToElection ledger voteId now freshKey
        electionId voteData voterPublicKey signature = .ok ((th, bh), L') →
      th = hashVote (BlockchainService.builtTransaction voteId now freshKey
          electionId voteData voterPublicKey signature) ∧
      bh = ((ledger.submitTransaction (BlockchainService.builtTransaction voteId
          now freshKey electionId voteData voterPublicKey
          signature)).2.sealPending now).1.hash ∧
      BlockchainService.builtTransaction voteId now freshKey electionId voteData
          voterPublicKey signature ∈
        ((ledger.submitTransaction (BlockchainService.builtTransaction voteId
          now freshKey electionId voteData voterPublicKey
          signature)).2.sealPending now).1.transactions) := by
  rw [addVote_eval]
  constructor
  · constructor
    · rintro ⟨e, he⟩
      by_cases h : (ledger.submitTransaction (BlockchainService.builtTransaction
          voteId now freshKey electionId voteData voterPublicKey signature)).1
          = false
      · exact .inl h
      · rw [if_neg h] at he; cases he
    · intro hor
      rcases hor with h | h
      · exact ⟨_, by rw [if_pos h]⟩
      · simp [Ledger.forceMinePendingVotes] at h
  · intro th bh L' hok
    by_cases h : (ledger.submitTransaction (BlockchainService.builtTransaction
        voteId now freshKey electionId voteData voterPublicKey signature)).1
        = false
    · rw [if_pos h] at hok; cases hok
    · rw [if_neg h] at hok
      have ht : (ledger.submitTransaction (BlockchainService.builtTransaction
          voteId now freshKey electionId voteData voterPublicKey signature)).1
          = true := by
        cases hb : (ledger.submitTransaction (BlockchainService.builtTransaction
            voteId now freshKey electionId voteData voterPublicKey signature)).1
        · exact absurd hb h
        · rfl
      simp only [Except.ok.injEq, Prod.mk.injEq] at hok
      exact ⟨hok.1.1.symm, hok.1.2.symm, tx_in_sealed_block now ht⟩

set_option maxRecDepth 8000 in
theorem C5_facade_error_semantics_witness :
    BlockchainService.builtTransaction ("V1") 5 sampleKeyPair 1 sampleVoteData
        sampleSignedTx.voterPublicKey sampleSignedTx.signature ∈
      ((sampleLedger0.submitTransaction (BlockchainService.builtTransaction ("V1")
        5 sampleKeyPair 1 sampleVoteData sampleSignedTx.voterPublicKey
        sampleSignedTx.signature)).2.sealPending 5).1.transactions :=
  ((C5_facade_error_semantics sampleLedger0 ("V1") 5 sampleKeyPair 1
      sampleVoteData sampleSignedTx.voterPublicKey sampleSignedTx.signature).2
    _ _ _ rfl).2.2

/-- C9: the timestamp stored in the transaction the imported facade constructs
is the fresh server time fixed inside the facade; the caller-supplied
`voteData.timestamp` string is never used in the stored transaction or its
content hash, and two calls identical except for the fresh time produce
transactions with different timestamps and different content hashes. -/
theorem C9_fresh_timestamp (voteId : String) (now t1 t2 : Nat)
    (freshKey : CryptoUtils.KeyPair) (electionId candidateId : Nat)
    (callerTs1 callerTs2 : String) (voterPublicKey signature : String)
    (hne : t1 ≠ t2) :
    BlockchainService.builtTransaction voteId now freshKey electionId
        ⟨candidateId, callerTs1⟩ voterPublicKey signature =
      BlockchainService.builtTransaction voteId now freshKey electionId
        ⟨candidateId, callerTs2⟩ voterPublicKey signature ∧
    (BlockchainService.builtTransaction voteId now freshKey electionId
        ⟨candidateId, callerTs1⟩ voterPublicKey signature).timestamp = now ∧
    (BlockchainService.builtTransaction voteId t1 freshKey electionId
        ⟨candidateId, callerTs1⟩ voterPublicKey signature).timestamp ≠
      (BlockchainService.builtTransaction voteId t2 freshKey electionId
        ⟨candidateId, callerTs1⟩ voterPublicKey signature).timestamp ∧
    hashVote (BlockchainService.builtTransaction voteId t1 freshKey electionId
        ⟨candidateId, callerTs1⟩ voterPublicKey signature) ≠
      hashVote (BlockchainService.builtTransaction voteId t2 freshKey electionId
        ⟨candidateId, callerTs1⟩ voterPublicKey signature) := by
  refine ⟨rfl, rfl, hne, ?_⟩
  intro h
  exact hne (hashVote_timestamp_inj h)

theorem C9_fresh_timestamp_witness :
    BlockchainService.builtTransaction ("V1") 4 sampleKeyPair 1 ⟨2, "TSa"⟩ "" "" =
      BlockchainService.builtTransaction ("V1") 4 sampleKeyPair 1 ⟨2, "TSb"⟩ "" "" ∧
    (BlockchainService.builtTransaction ("V1") 4 sampleKeyPair 1 ⟨2, "TSa"⟩ ""
        "").timestamp = 4 ∧
    (BlockchainService.builtTransaction ("V1") 1 sampleKeyPair 1 ⟨2, "TSa"⟩ ""
        "").timestamp ≠
      (BlockchainService.builtTransaction ("V1") 2 sampleKeyPair 1 ⟨2, "TSa"⟩ ""
        "").timestamp ∧
    hashVote (BlockchainService.builtTransaction ("V1") 1 sampleKeyPair 1
        ⟨2, "TSa"⟩ "" "") ≠
      hashVote (BlockchainService.builtTransaction ("V1") 2 sampleKeyPair 1
        ⟨2, "TSa"⟩ "" "") :=
  C9_fresh_timestamp ("V1") 4 1 2 sampleKeyPair 1 2 ("TSa") "TSb" "" "" (by decide)

/-- C2 counterexample: a transaction the part_006 facade constructs on the
pass-through path (valid caller key, route-forwarded auto-signature). Its
stored signature was produced over the route's payload, which is not
byte-identical to the validation payload — the canonical serialization of
the stored record's signable fields — and so the stored signature does not
verify against the stored record. -/
theorem C2_counterexample :
    samplePassThroughTx.signature =
      CryptoUtils.signData (VoteRoute.votePayload 2 ("T"))
        sampleVoterKeyPair.privateKey ∧
    VoteRoute.votePayload 2 ("T") ≠
      canonicalSerializeVote (signableOf samplePassThroughTx) ∧
    CryptoUtils.verifySignature
      (canonicalSerializeVote (signableOf samplePassThroughTx))
      samplePassThroughTx.signature samplePassThroughTx.voterPublicKey
      = false := by
  exact ⟨rfl, by decide, by decide⟩

/-- C2 (amended): the part_006 facade fixes a single timestamp at submission
time and stores it in the constructed transaction on every path. Only on the
key-generation fallback is the payload that is signed byte-identical to the
validation payload — the canonical serialization of the stored signable
fields — so that the stored signature verifies; on the pass-through path the
caller's signature is stored unchanged, with no byte-identity guarantee
(counterexample above), and the imported blockchain.service.ts variant never
signs at all (established with C1). -/
theorem C2_single_timestamp (voteId : String) (now seed electionId : Nat)
    (voteData : VoteData) (voterPublicKey signature : String) :
    (BlockchainServiceV2.builtTransaction voteId now
        (CryptoUtils.generateKeyPair seed) electionId voteData voterPublicKey
        signature).timestamp = now ∧
    (BlockchainServiceV2.fallbackTaken voterPublicKey = true →
      (BlockchainServiceV2.builtTransaction voteId now
          (CryptoUtils.generateKeyPair seed) electionId voteData voterPublicKey
          signature).signature =
        CryptoUtils.signData
          (canonicalSerializeVote (signableOf
            (BlockchainServiceV2.builtTransaction voteId now
              (CryptoUtils.generateKeyPair seed) electionId voteData
              voterPublicKey signature)))
          (CryptoUtils.generateKeyPair seed).privateKey ∧
      CryptoUtils.verifySignature
        (canonicalSerializeVote (signableOf
          (BlockchainServiceV2.builtTransaction voteId now
            (CryptoUtils.generateKeyPair seed) electionId voteData
            voterPublicKey signature)))
        (BlockchainServiceV2.builtTransaction voteId now
          (CryptoUtils.generateKeyPair seed) electionId voteData voterPublicKey
          signature).signature
        (BlockchainServiceV2.builtTransaction voteId now
          (CryptoUtils.generateKeyPair seed) electionId voteData voterPublicKey
          signature).voterPublicKey = true) ∧
    (BlockchainServiceV2.fallbackTaken voterPublicKey = false →
      (BlockchainServiceV2.builtTransaction voteId now
          (CryptoUtils.generateKeyPair seed) electionId voteData voterPublicKey
          signature).signature = signature) := by
  refine ⟨rfl, fun hf => v2_fallback_signature voteId now seed electionId
    voteData voterPublicKey signature hf, fun hp => ?_⟩
  simp [BlockchainServiceV2.builtTransaction,
    BlockchainServiceV2.finalKeyAndSignature, hp]

theorem C2_single_timestamp_witness :
    (BlockchainServiceV2.builtTransaction ("V1") 5 (CryptoUtils.generateKeyPair 7)
        1 sampleVoteData ("") "").timestamp = 5 ∧
    CryptoUtils.verifySignature
      (canonicalSerializeVote (signableOf
        (BlockchainServiceV2.builtTransaction ("V1") 5
          (CryptoUtils.generateKeyPair 7) 1 sampleVoteData ("") "")))
      (BlockchainServiceV2.builtTransaction ("V1") 5
        (CryptoUtils.generateKeyPair 7) 1 sampleVoteData ("") "").signature
      (BlockchainServiceV2.builtTransaction ("V1") 5
        (CryptoUtils.generateKeyPair 7) 1 sampleVoteData ("") "").voterPublicKey
      = true ∧
    (BlockchainServiceV2.builtTransaction ("V1") 5
        (CryptoUtils.generateKeyPair 7) 1 sampleVoteData
        sampleVoterKeyPair.publicKey ("SIGX")).signature = ("SIGX") :=
  ⟨(C2_single_timestamp ("V1") 5 7 1 sampleVoteData ("") "").1,
   ((C2_single_timestamp ("V1") 5 7 1 sampleVoteData ("") "").2.1 (by decide)).2,
   (C2_single_timestamp ("V1") 5 7 1 sampleVoteData sampleVoterKeyPair.publicKey
     ("SIGX")).2.2 (by decide)⟩

/-- C1 counterexample: calling the imported facade with an absent public key
and an absent signature, the constructed transaction that is handed to the
ledger carries the literal placeholder string as its signature — not a
signature over the canonical serialization — and it does not verify under the
transaction's voter public key. -/
theorem C1_counterexample :
    (BlockchainService.builtTransaction ("V1") 5 sampleKeyPair 1 sampleVoteData
        "" "").signature = "system-signed-placeholder" ∧
    CryptoUtils.verifySignature
      (canonicalSerializeVote (signableOf
        (BlockchainService.builtTransaction ("V1") 5 sampleKeyPair 1
          sampleVoteData ("") "")))
      (BlockchainService.builtTransaction ("V1") 5 sampleKeyPair 1 sampleVoteData
        "" "").signature
      (BlockchainService.builtTransaction ("V1") 5 sampleKeyPair 1 sampleVoteData
        "" "").voterPublicKey = false := by
  exact ⟨rfl, by decide⟩

/-- C1 (amended): the fallback is triggered only by an absent or invalid
public key, not by an absent signature. In the part_006 variant that fallback
generates a key pair, canonically serializes the signable fields and signs so
that the final transaction verifies under its voter public key; in the
imported blockchain.service.ts variant no signing occurs — an absent
signature is replaced by the placeholder string "system-signed-placeholder",
which never verifies. -/
theorem C1_amended_fallback (voteId : String) (now seed electionId : Nat)
    (voteData : VoteData) (voterPublicKey signature : String)
    (hpk : CryptoUtils.isValidPublicKey voterPublicKey = false) :
    CryptoUtils.verifySignature
      (canonicalSerializeVote (signableOf
        (BlockchainServiceV2.builtTransaction voteId now
          (CryptoUtils.generateKeyPair seed) electionId voteData voterPublicKey
          signature)))
      (BlockchainServiceV2.builtTransaction voteId now
        (CryptoUtils.generateKeyPair seed) electionId voteData voterPublicKey
        signature).signature
      (BlockchainServiceV2.builtTransaction voteId now
        (CryptoUtils.generateKeyPair seed) electionId voteData voterPublicKey
        signature).voterPublicKey = true ∧
    (BlockchainService.builtTransaction voteId now
        (CryptoUtils.generateKeyPair seed) electionId voteData voterPublicKey
        "").signature = "system-signed-placeholder" ∧
    CryptoUtils.verifySignature
      (canonicalSerializeVote (signableOf
        (BlockchainService.builtTransaction voteId now
          (CryptoUtils.generateKeyPair seed) electionId voteData voterPublicKey
          "")))
      (BlockchainService.builtTransaction voteId now
        (CryptoUtils.generateKeyPair seed) electionId voteData voterPublicKey
        "").signature
      (BlockchainService.builtTransaction voteId now
        (CryptoUtils.generateKeyPair seed) electionId voteData voterPublicKey
        "").voterPublicKey = false := by
  refine ⟨(v2_fallback_signature voteId now seed electionId voteData
    voterPublicKey signature (fallbackTaken_of_invalid hpk)).2, rfl, ?_⟩
  exact placeholder_verify_false _ _

theorem C1_amended_fallback_witness :
    CryptoUtils.verifySignature
      (canonicalSerializeVote (signableOf
        (BlockchainServiceV2.builtTransaction ("V1") 5
          (CryptoUtils.generateKeyPair 7) 1 sampleVoteData ("") "x")))
      (BlockchainServiceV2.builtTransaction ("V1") 5
        (CryptoUtils.generateKeyPair 7) 1 sampleVoteData ("") "x").signature
      (BlockchainServiceV2.builtTransaction ("V1") 5
        (CryptoUtils.generateKeyPair 7) 1 sampleVoteData ("") "x").voterPublicKey
      = true ∧
    (BlockchainService.builtTransaction ("V1") 5 (CryptoUtils.generateKeyPair 7)
        1 sampleVoteData ("") "").signature = "system-signed-placeholder" :=
  ⟨(C1_amended_fallback ("V1") 5 7 1 sampleVoteData ("") "x" (by decide)).1,
   (C1_amended_fallback ("V1") 5 7 1 sampleVoteData ("") "x" (by decide)).2.1⟩

/-- C10: in the vote route's fallback path (no client signature), the
forwarded signature is computed over `JSON.stringify` of only
`candidateId` and `timestamp` with the freshly generated key — a payload that
is never equal to the canonical serialization of any transaction's signable
fields — and if key generation throws, the route forwards the empty-string
signature instead of failing. -/
theorem C10_route_autosign_mismatch (userPublicKey : Option String)
    (clientSignature : Option String) (candidateId : Nat)
    (timestampIso : String) (keygen : Option CryptoUtils.KeyPair)
    (hfs : clientSignature = none ∨ clientSignature = some ("")) :
    (∀ kp, keygen = some kp →
      (VoteRoute.prepareSubmission userPublicKey clientSignature candidateId
          timestampIso keygen).finalSignature =
        CryptoUtils.signData (VoteRoute.votePayload candidateId timestampIso)
          kp.privateKey ∧
      ∀ f : SignableVote,
        VoteRoute.votePayload candidateId timestampIso ≠
          canonicalSerializeVote f) ∧
    (keygen = none →
      (VoteRoute.prepareSubmission userPublicKey clientSignature candidateId
          timestampIso keygen).finalSignature = "") := by
  have hfs0 : clientSignature.getD ("") = "" := by
    rcases hfs with h | h <;> rw [h] <;> rfl
  constructor
  · intro kp hk
    subst hk
    constructor
    · simp [VoteRoute.prepareSubmission, hfs0]
    · exact votePayload_ne_canonicalSerialize candidateId timestampIso
  · intro hk
    subst hk
    simp [VoteRoute.prepareSubmission, hfs0]

theorem C10_route_autosign_mismatch_witness :
    (VoteRoute.prepareSubmission (some ("UPK")) none 2 ("T")
        (some sampleKeyPair)).finalSignature =
      CryptoUtils.signData (VoteRoute.votePayload 2 ("T"))
        sampleKeyPair.privateKey ∧
    VoteRoute.votePayload 2 ("T") ≠ canonicalSerializeVote sampleFieldsA ∧
    (VoteRoute.prepareSubmission (some ("UPK")) none 2 ("T") none).finalSignature
      = "" :=
  ⟨((C10_route_autosign_mismatch (some ("UPK")) none 2 ("T") (some sampleKeyPair)
      (.inl rfl)).1 sampleKeyPair rfl).1,
   ((C10_route_autosign_mismatch (some ("UPK")) none 2 ("T") (some sampleKeyPair)
      (.inl rfl)).1 sampleKeyPair rfl).2 sampleFieldsA,
   (C10_route_autosign_mismatch (some ("UPK")) none 2 ("T") none (.inl rfl)).2 rfl⟩

end EVoting
